import Mathlib

/-!
Verification of the VoiceClips clipper (src/UI/clipper.py) against its
natural-language specification.  The Python source is shallowly embedded:
pure text processing becomes Lean functions over strings, the stateful
voice-command loop body becomes an explicit step function on a detector
state, and the save operation becomes a function from a clip state, an
environment describing injected failures, and a small file-system model
to an outcome record.
-/

/-! ## String primitives modelling the Python built-ins used by clipper.py -/

/-- Model of Python str.lower for the ASCII text handled by the recognizer. -/
def pyLower (s : String) : String :=
  String.mk (s.data.map Char.toLower)

/-- Drop leading whitespace, model of one side of Python str.strip. -/
def dropLeadingWs (l : List Char) : List Char :=
  l.dropWhile Char.isWhitespace

/-- Model of Python str.strip: remove whitespace from both ends. -/
def pyStrip (s : String) : String :=
  String.mk ((dropLeadingWs ((dropLeadingWs s.data).reverse)).reverse)

/-- Accumulator-based word splitter: the accumulator holds the reversed
characters of the word currently being read. -/
def wordsAux : List Char → List Char → List String
  | [], acc => if acc.isEmpty then [] else [String.mk acc.reverse]
  | c :: cs, acc =>
    if c.isWhitespace then
      if acc.isEmpty then wordsAux cs []
      else String.mk acc.reverse :: wordsAux cs []
    else wordsAux cs (c :: acc)

/-- Model of Python str.split with no arguments: split on whitespace runs,
discarding empty pieces. -/
def splitWs (s : String) : List String :=
  wordsAux s.data []

/-- Model of Python " ".join. -/
def joinWords : List String → String
  | [] => ""
  | [w] => w
  | w :: ws => w ++ " " ++ joinWords ws

/-- Whether the first list is an initial segment of the second. -/
def startsWithList : List Char → List Char → Bool
  | [], _ => true
  | _ :: _, [] => false
  | n :: ns, h :: hs => (n == h) && startsWithList ns hs

/-- Whether the first list occurs contiguously inside the second. -/
def containsSub (needle : List Char) : List Char → Bool
  | [] => needle.isEmpty
  | c :: cs => startsWithList needle (c :: cs) || containsSub needle cs

/-- Model of the Python expression `needle in hay` on strings:
substring containment. -/
def strContains (needle hay : String) : Bool :=
  containsSub needle.data hay.data

/-! ## Fuzzy matching: model of rapidfuzz fuzz.ratio

rapidfuzz fuzz.ratio is the normalized InDel similarity scaled to 0..100:
with d the minimal number of single-character insertions and deletions
turning one string into the other, the score is
100 * (len1 + len2 - d) / (len1 + len2). -/

/-- Fuel-based InDel distance (edit distance with insertions and deletions
only).  Any fuel at least the total length of the two lists yields the
exact distance. -/
def indelAux : Nat → List Char → List Char → Nat
  | 0, a, b => a.length + b.length
  | _ + 1, [], b => b.length
  | _ + 1, a, [] => a.length
  | fuel + 1, a :: as, b :: bs =>
    if a == b then indelAux fuel as bs
    else 1 + min (indelAux fuel as (b :: bs)) (indelAux fuel (a :: as) bs)

/-- InDel distance between two strings. -/
def indelDist (a b : String) : Nat :=
  indelAux (a.data.length + b.data.length) a.data b.data

/-- Model of rapidfuzz fuzz.ratio on a 0..100 scale, as an exact rational. -/
def fuzzScore (a b : String) : ℚ :=
  let s : Nat := a.length + b.length
  if s = 0 then 100 else 100 * ((s : ℚ) - (indelDist a b : ℚ)) / (s : ℚ)

/-! ## Command detection (listen_for_clips, lines 266-310) -/

/-- Stopword list from line 276 of clipper.py. -/
def stop_words : List String :=
  ["the", "a", "an", "and", "or", "but", "in", "on", "at", "to"]

/-- Trigger vocabulary from line 284 of clipper.py. -/
def clip_words : List String :=
  ["clip", "clips", "clipped", "click", "quick", "cli", "clis"]

/-- Lines 273-277: keep only the words longer than one character that are
not stopwords, and join them with single spaces. -/
def cleanTextOf (recognized : String) : String :=
  joinWords ((splitWs recognized).filter
    (fun w => decide (1 < w.length) && !(stop_words.contains w)))

/-- Line 268: the recognized text, lowercased and stripped. -/
def normText (resultText : String) : String :=
  pyStrip (pyLower resultText)

/-- The cleaned text the loop body computes from a raw recognizer result. -/
def cleanedOf (resultText : String) : String :=
  cleanTextOf (normText resultText)

/-- Line 287: direct match, Python `any(word in cleaned_text for word in
clip_words)` — substring containment of a vocabulary word in the whole
cleaned text. -/
def clipDetectedDirect (cleaned : String) : Bool :=
  clip_words.any (fun w => strContains w cleaned)

/-- Lines 291-296: fuzzy scan over the tokens of the cleaned text,
accepting when fuzz.ratio("clip", word) exceeds 40. -/
def clipDetectedFuzzy (cleaned : String) : Bool :=
  (splitWs cleaned).any (fun w => decide (40 < fuzzScore "clip" w))

/-- Lines 287-296: detection = direct match, falling back to the fuzzy
scan only when no direct match was found. -/
def clipDetected (cleaned : String) : Bool :=
  if clipDetectedDirect cleaned then true else clipDetectedFuzzy cleaned

/-- Detection as the specification words it: some normalized token exactly
equals a vocabulary entry, with the fuzzy scan as fallback. -/
def clipDetectedSpec (cleaned : String) : Bool :=
  if (splitWs cleaned).any (fun w => clip_words.contains w) then true
  else (splitWs cleaned).any (fun w => decide (40 < fuzzScore "clip" w))

/-- The mutable state of the detection loop: last accepted trigger time
(line 261) and the bounded recent-command list (line 260, deque maxlen 3). -/
structure DetectorState where
  lastClipTime : ℚ
  recentCommands : List String
deriving DecidableEq

/-- Model of append on a Python deque with maxlen cap: append to the right,
then drop from the left anything beyond the capacity. -/
def dequePush (cap : Nat) (l : List String) (x : String) : List String :=
  let l2 := l ++ [x]
  if cap < l2.length then l2.drop (l2.length - cap) else l2

/-- One iteration of the loop body of listen_for_clips (lines 266-310) for a
final recognizer result: given the current detector state, the current
time and the recognized text, return the next state and whether a save was
signalled. -/
def detectorStep (st : DetectorState) (t : ℚ) (txt : String) :
    DetectorState × Bool :=
  if normText txt ≠ "" ∧ 1 < (normText txt).length then
    if cleanedOf txt ≠ "" then
      if clipDetected (cleanedOf txt) = true then
        if 2 < t - st.lastClipTime then
          if cleanedOf txt ∉ st.recentCommands then
            (⟨t, dequePush 3 st.recentCommands (cleanedOf txt)⟩, true)
          else (st, false)
        else (st, false)
      else (st, false)
    else (st, false)
  else (st, false)

/-! ## The save operation (save_clip, lines 128-239) -/

/-- A raw frame or audio byte block. -/
abbrev Frame := List Nat

/-- The fields of the Clipper object that save_clip reads and writes. -/
structure ClipState where
  frameBuffer : Option (List Frame)
  audioBuffer : Option (List Frame)
  clipCounter : Nat
deriving DecidableEq

/-- The transient and final files a save may create. -/
structure FS where
  tempVideo : Bool
  tempAudio : Bool
  output : Bool
deriving DecidableEq

/-- Outcome of the encoder invocation at line 225: success, a
CalledProcessError from a non-zero exit, or any other exception. -/
inductive EncOutcome
  | success
  | calledProcessError
  | otherError
deriving DecidableEq

/-- Failures the environment may inject into a save: whether the two
temp-file writes succeed, and how the encoder run ends. -/
structure SaveEnv where
  writeVideoOk : Bool
  writeAudioOk : Bool
  enc : EncOutcome
deriving DecidableEq

/-- How a save invocation ends. -/
inductive SaveResult
  | nothingToSave
  | saved
  | encodeError
  | otherException
deriving DecidableEq

/-- Result of a save: the updated object state, the resulting file set, the
outcome, and whether an exception escaped save_clip. -/
structure SaveOutcome where
  state : ClipState
  fs : FS
  result : SaveResult
  raised : Bool
deriving DecidableEq

/-- Line 131: `not self.frame_buffer or len(self.frame_buffer) == 0` is
false exactly when the buffer is present and non-empty. -/
def bufNonempty : Option (List Frame) → Bool
  | none => false
  | some l => !l.isEmpty

/-- The finally block at lines 234-239: remove each temp file that exists. -/
def removeTemps (fs : FS) : FS :=
  { fs with tempVideo := false, tempAudio := false }

/-- Model of save_clip (lines 128-239).  The with-lock body: abort when the
frame buffer is unset or empty; otherwise increment the counter, write the
temp video (creating the file), write the temp audio when the audio buffer
is non-empty, run the encoder, and in all cases run the finally cleanup.
The except clauses at lines 228-233 catch every exception inside the try
block, so no path raises. -/
def save_clip (st : ClipState) (env : SaveEnv) (fs : FS) : SaveOutcome :=
  if bufNonempty st.frameBuffer = false then
    ⟨st, fs, .nothingToSave, false⟩
  else
    let st1 : ClipState := { st with clipCounter := st.clipCounter + 1 }
    let fs1 : FS := { fs with tempVideo := true }
    if env.writeVideoOk = false then
      ⟨st1, removeTemps fs1, .otherException, false⟩
    else
      let fs2 : FS :=
        if bufNonempty st.audioBuffer then { fs1 with tempAudio := true }
        else fs1
      if bufNonempty st.audioBuffer = true ∧ env.writeAudioOk = false then
        ⟨st1, removeTemps fs2, .otherException, false⟩
      else
        match env.enc with
        | .success => ⟨st1, removeTemps { fs2 with output := true }, .saved, false⟩
        | .calledProcessError => ⟨st1, removeTemps fs2, .encodeError, false⟩
        | .otherError => ⟨st1, removeTemps fs2, .otherException, false⟩

/-! ## Lock scope inside save_clip

The statement `with self.lock:` at line 130 encloses the whole body of
save_clip.  The phases below name its successive steps in source order;
the two lists record which phases execute under the lock and which outside
it. -/

/-- The successive steps of the body of save_clip. -/
inductive SavePhase
  | emptyCheck
  | incrementCounter
  | computeFilenames
  | snapshotFrames
  | writeTempVideo
  | snapshotAudio
  | writeTempAudio
  | buildEncoderCommand
  | runEncoder
  | cleanupTempFiles
deriving DecidableEq

/-- The steps lexically inside `with self.lock:` (lines 130-239): all of
them. -/
def savePhasesInsideLock : List SavePhase :=
  [.emptyCheck, .incrementCounter, .computeFilenames, .snapshotFrames,
   .writeTempVideo, .snapshotAudio, .writeTempAudio, .buildEncoderCommand,
   .runEncoder, .cleanupTempFiles]

/-- The steps of save_clip outside the lock: none. -/
def savePhasesOutsideLock : List SavePhase := []

/-- Which steps are the snapshot copies of the two buffers (lines 151 and
161). -/
def isSnapshotCopy : SavePhase → Bool
  | .snapshotFrames => true
  | .snapshotAudio => true
  | _ => false

/-! ## Bounded buffers and set_buffer_duration (lines 119-126) -/

/-- Model of a Python collections.deque with a maxlen bound. -/
structure BDeque (α : Type) where
  maxlen : Nat
  items : List α
deriving DecidableEq

/-- A fresh empty deque of the given capacity. -/
def BDeque.emptyOf (α : Type) (cap : Nat) : BDeque α := ⟨cap, []⟩

/-- Deque append: add on the right, drop from the left past the capacity. -/
def BDeque.push {α : Type} (d : BDeque α) (x : α) : BDeque α :=
  let l := d.items ++ [x]
  ⟨d.maxlen, if d.maxlen < l.length then l.drop (l.length - d.maxlen) else l⟩

/-- The orchestrator fields touched by set_buffer_duration. -/
structure Orch where
  buffer_duration : Nat
  frame_buffer : BDeque Frame
  audio_buffer : BDeque Frame
deriving DecidableEq

/-- Model of set_buffer_duration (lines 119-126): record the new duration
and replace both buffers with fresh empty deques, the frame buffer with
capacity duration * 30 and the audio buffer with capacity
duration * 44100 * 2. -/
def set_buffer_duration (_st : Orch) (duration : Nat) : Orch :=
  { buffer_duration := duration,
    frame_buffer := BDeque.emptyOf Frame (duration * 30),
    audio_buffer := BDeque.emptyOf Frame (duration * 44100 * 2) }

/-! ## Helper lemmas about the detector step -/

/-- When no save is signalled, the loop body leaves the detector state
untouched. -/
theorem stepNotAcceptedState (st : DetectorState) (t : ℚ) (txt : String)
    (h : (detectorStep st t txt).2 = false) :
    (detectorStep st t txt).1 = st := by
  unfold detectorStep at h ⊢
  split_ifs at h ⊢ <;> simp_all

/-- When a save is signalled, the new state records the time and pushes the
cleaned text onto the recent-command deque. -/
theorem stepAcceptedState (st : DetectorState) (t : ℚ) (txt : String)
    (h : (detectorStep st t txt).2 = true) :
    (detectorStep st t txt).1 =
      ⟨t, dequePush 3 st.recentCommands (cleanedOf txt)⟩ := by
  unfold detectorStep at h ⊢
  split_ifs at h ⊢ <;> simp_all

/-- Inside the cooldown window no save is ever signalled. -/
theorem stepCooldownRejects (st : DetectorState) (t : ℚ) (txt : String)
    (h : ¬ (2 < t - st.lastClipTime)) :
    (detectorStep st t txt).2 = false := by
  unfold detectorStep
  split_ifs <;> simp_all

/-- Pushing onto a full three-element deque drops the oldest entry. -/
theorem dequePush_full (l : List String) (x : String) (h : l.length = 3) :
    dequePush 3 l x = l.tail ++ [x] := by
  rcases l with _ | ⟨a, _ | ⟨b, _ | ⟨c, _ | ⟨d, l⟩⟩⟩⟩
  all_goals simp_all [dequePush]

/-! ## Claim theorems -/

/-- Claim C1, counterexample: the code detects the normalized utterance
"quickly" because the vocabulary word "quick" is a substring of it, yet no
token of "quickly" exactly equals a vocabulary entry and its fuzzy score
against "clip" is 400/11, which does not exceed 40 — so detection as the
claim states it (exact token equality, else fuzzy) returns false where the
code returns true. -/
theorem clip_detection_spec_cex :
    cleanedOf "quickly" = "quickly" ∧
    clipDetected "quickly" = true ∧
    clipDetectedSpec "quickly" = false :=
  ⟨by decide, by decide, by with_unfolding_all rfl⟩

/-- Claim C1, amended: for every normalized utterance, trigger detection
succeeds if and only if either some vocabulary entry occurs as a substring
of the normalized text, or no entry does and some whitespace token of the
text has fuzzy score against "clip" strictly exceeding 40. -/
theorem clip_detection_characterization (s : String) :
    clipDetected s = true ↔
      ((∃ w ∈ clip_words, strContains w s = true) ∨
       ((¬ ∃ w ∈ clip_words, strContains w s = true) ∧
        ∃ tok ∈ splitWs s, 40 < fuzzScore "clip" tok)) := by
  have hd : clipDetectedDirect s = true ↔
      ∃ w ∈ clip_words, strContains w s = true := by
    simp [clipDetectedDirect, List.any_eq_true]
  have hf : clipDetectedFuzzy s = true ↔
      ∃ tok ∈ splitWs s, 40 < fuzzScore "clip" tok := by
    simp [clipDetectedFuzzy, List.any_eq_true]
  unfold clipDetected
  by_cases h : clipDetectedDirect s = true
  · rw [if_pos h]
    simp only [true_iff]
    exact Or.inl (hd.mp h)
  · rw [if_neg h]
    constructor
    · intro hfz
      exact Or.inr ⟨fun hex => h (hd.mpr hex), hf.mp hfz⟩
    · intro hor
      rcases hor with hex | ⟨-, htok⟩
      · exact absurd (hd.mpr hex) h
      · exact hf.mpr htok

/-- Claim C2, counterexample: the encoder invocation runs inside the
with-lock region of save_clip even though it is not the snapshot-copy
step, so the lock is not scoped to the copy alone. -/
theorem lock_scope_cex :
    SavePhase.runEncoder ∈ savePhasesInsideLock ∧
    isSnapshotCopy SavePhase.runEncoder = false := by
  decide

/-- Claim C2, amended: the with-lock region of save_clip covers every step
of the save — snapshot copies, temp-file writes, the encoder invocation
and cleanup — so a concurrent buffer push or a second save waits for the
whole save, not only for the copy of the buffers. -/
theorem lock_scope_full_save :
    savePhasesOutsideLock = [] ∧
    ∀ p : SavePhase, p ∈ savePhasesInsideLock := by
  refine ⟨rfl, fun p => ?_⟩
  cases p <;> decide

/-- Claim C3: for every save with a non-empty frame buffer, whatever the
outcome of the temp-file writes and of the encoder, the finally block
leaves neither the temporary video file nor the temporary audio file
behind, and no exception escapes save_clip. -/
theorem save_cleanup_all_paths (st : ClipState) (env : SaveEnv) (fs : FS)
    (h : bufNonempty st.frameBuffer = true) :
    (save_clip st env fs).fs.tempVideo = false ∧
    (save_clip st env fs).fs.tempAudio = false ∧
    (save_clip st env fs).raised = false := by
  obtain ⟨wv, wa, enc⟩ := env
  unfold save_clip
  rw [if_neg (by simp [h])]
  cases enc <;> split_ifs <;> simp [removeTemps]

/-- Witness for claim C3 at a concrete input: one frame buffered, audio
present, encoder exiting non-zero. -/
theorem save_cleanup_all_paths_witness :
    bufNonempty (some [[0]]) = true ∧
    ((save_clip ⟨some [[0]], some [[1]], 0⟩
        ⟨true, true, EncOutcome.calledProcessError⟩
        ⟨false, false, false⟩).fs.tempVideo = false ∧
     (save_clip ⟨some [[0]], some [[1]], 0⟩
        ⟨true, true, EncOutcome.calledProcessError⟩
        ⟨false, false, false⟩).fs.tempAudio = false ∧
     (save_clip ⟨some [[0]], some [[1]], 0⟩
        ⟨true, true, EncOutcome.calledProcessError⟩
        ⟨false, false, false⟩).raised = false) :=
  ⟨by decide,
   save_cleanup_all_paths ⟨some [[0]], some [[1]], 0⟩
     ⟨true, true, EncOutcome.calledProcessError⟩
     ⟨false, false, false⟩ (by decide)⟩

/-- Claim C4: a save on an unset or empty frame buffer returns the
nothing-to-save outcome, creates no file, and leaves the object state
unchanged. -/
theorem empty_buffer_no_files (st : ClipState) (env : SaveEnv) (fs : FS)
    (h : bufNonempty st.frameBuffer = false) :
    save_clip st env fs = ⟨st, fs, SaveResult.nothingToSave, false⟩ := by
  unfold save_clip
  rw [if_pos h]

/-- Witness for claim C4 at a concrete input: an empty frame buffer. -/
theorem empty_buffer_no_files_witness :
    bufNonempty (some []) = false ∧
    save_clip ⟨some [], none, 7⟩ ⟨true, true, EncOutcome.success⟩
        ⟨false, false, false⟩ =
      ⟨⟨some [], none, 7⟩, ⟨false, false, false⟩,
       SaveResult.nothingToSave, false⟩ :=
  ⟨by decide,
   empty_buffer_no_files ⟨some [], none, 7⟩ ⟨true, true, EncOutcome.success⟩
     ⟨false, false, false⟩ (by decide)⟩

/-- Claim C5: when a trigger is accepted at time t1, the accepted time is
recorded, and any utterance arriving strictly less than 2 seconds later is
suppressed — so a pair of trigger-worthy utterances inside the cooldown
window yields exactly one accepted save. -/
theorem cooldown_suppresses_second (st : DetectorState) (t1 t2 : ℚ)
    (u1 u2 : String)
    (h1 : (detectorStep st t1 u1).2 = true)
    (h2 : t2 - t1 < 2) :
    (detectorStep st t1 u1).1.lastClipTime = t1 ∧
    (detectorStep (detectorStep st t1 u1).1 t2 u2).2 = false := by
  have hs := stepAcceptedState st t1 u1 h1
  refine ⟨by rw [hs], ?_⟩
  apply stepCooldownRejects
  rw [hs]
  dsimp only
  linarith

/-- Witness for claim C5 at a concrete input: accepted trigger at time 10,
second trigger-worthy utterance at time 11. -/
theorem cooldown_suppresses_second_witness :
    (detectorStep ⟨0, []⟩ 10 "clip").2 = true ∧
    (11 : ℚ) - 10 < 2 ∧
    ((detectorStep ⟨0, []⟩ 10 "clip").1.lastClipTime = 10 ∧
     (detectorStep (detectorStep ⟨0, []⟩ 10 "clip").1 11 "clips").2 = false) :=
  ⟨by with_unfolding_all rfl, by norm_num,
   cooldown_suppresses_second ⟨0, []⟩ 10 11 "clip" "clips"
     (by with_unfolding_all rfl) (by norm_num)⟩

/-- Claim C6: outside the cooldown window, a trigger-worthy utterance is
rejected exactly when its cleaned text already sits in the recent-command
deque; on acceptance the cleaned text is appended to the deque, and when
the deque already holds three entries the oldest one is evicted. -/
theorem duplicate_dedup_fifo (st : DetectorState) (t : ℚ) (txt : String)
    (hlen : 1 < (normText txt).length)
    (hdet : clipDetected (cleanedOf txt) = true)
    (hcool : 2 < t - st.lastClipTime) :
    ((detectorStep st t txt).2 = false ↔ cleanedOf txt ∈ st.recentCommands) ∧
    ((detectorStep st t txt).2 = true →
       (detectorStep st t txt).1.recentCommands =
         dequePush 3 st.recentCommands (cleanedOf txt)) ∧
    (st.recentCommands.length = 3 →
       dequePush 3 st.recentCommands (cleanedOf txt) =
         st.recentCommands.tail ++ [cleanedOf txt]) := by
  have hne : normText txt ≠ "" := by
    intro he
    rw [he] at hlen
    exact absurd hlen (by decide)
  have hcl : cleanedOf txt ≠ "" := by
    intro he
    rw [he] at hdet
    exact absurd hdet (by decide)
  unfold detectorStep
  rw [if_pos ⟨hne, hlen⟩, if_pos hcl, if_pos hdet, if_pos hcool]
  by_cases hmem : cleanedOf txt ∈ st.recentCommands
  · rw [if_neg (not_not_intro hmem)]
    exact ⟨by simp [hmem], by simp, dequePush_full st.recentCommands _⟩
  · rw [if_pos hmem]
    exact ⟨by simp [hmem], fun _ => rfl, dequePush_full st.recentCommands _⟩

/-- Witness for claim C6 at a concrete input: a full recent-command deque
and a fresh trigger outside the cooldown window. -/
theorem duplicate_dedup_fifo_witness :
    1 < (normText "clip").length ∧
    clipDetected (cleanedOf "clip") = true ∧
    (2 : ℚ) < 9 - 0 ∧
    (((detectorStep ⟨0, ["aa", "bb", "cc"]⟩ 9 "clip").2 = false ↔
        cleanedOf "clip" ∈ ["aa", "bb", "cc"]) ∧
     ((detectorStep ⟨0, ["aa", "bb", "cc"]⟩ 9 "clip").2 = true →
        (detectorStep ⟨0, ["aa", "bb", "cc"]⟩ 9 "clip").1.recentCommands =
          dequePush 3 ["aa", "bb", "cc"] (cleanedOf "clip")) ∧
     ((["aa", "bb", "cc"] : List String).length = 3 →
        dequePush 3 ["aa", "bb", "cc"] (cleanedOf "clip") =
          ["bb", "cc"] ++ [cleanedOf "clip"])) :=
  ⟨by decide, by decide, by norm_num,
   duplicate_dedup_fifo ⟨0, ["aa", "bb", "cc"]⟩ 9 "clip"
     (by decide) (by decide) (by norm_num)⟩

/-- Claim C7, counterexample: a save whose encoder invocation fails with a
non-zero exit still increments the clip counter from 5 to 6, because the
increment happens before the encode — contradicting that the counter is
unchanged by a save whose encoder invocation fails. -/
theorem counter_increment_cex :
    (save_clip ⟨some [[0]], none, 5⟩ ⟨true, true, EncOutcome.calledProcessError⟩
        ⟨false, false, false⟩).result = SaveResult.encodeError ∧
    (save_clip ⟨some [[0]], none, 5⟩ ⟨true, true, EncOutcome.calledProcessError⟩
        ⟨false, false, false⟩).state.clipCounter = 6 := by
  decide

/-- Claim C7, amended: the clip counter is monotonically non-decreasing and
is incremented exactly once per save invocation that passes the non-empty
frame-buffer check, regardless of whether the encode succeeds; it is
unchanged only by a save that aborts on an unset or empty buffer. -/
theorem counter_increment_per_invocation (st : ClipState) (env : SaveEnv)
    (fs : FS) :
    (save_clip st env fs).state.clipCounter =
      (if bufNonempty st.frameBuffer = false then st.clipCounter
       else st.clipCounter + 1) ∧
    st.clipCounter ≤ (save_clip st env fs).state.clipCounter := by
  obtain ⟨wv, wa, enc⟩ := env
  unfold save_clip
  cases enc <;> split_ifs <;> simp_all

/-- Claim C8, counterexample: for duration 1 the audio buffer created by
set_buffer_duration has capacity 1 * 44100 * 2 = 88200, not the claimed
duration * 44100 * 2 * 2 = 176400. -/
theorem audio_capacity_cex :
    (set_buffer_duration ⟨0, ⟨0, []⟩, ⟨0, []⟩⟩ 1).audio_buffer.maxlen = 88200 ∧
    ¬ (88200 = 1 * 44100 * 2 * 2) := by
  decide

/-- Claim C8, amended: setting the buffer duration to d replaces both
buffers with empty deques, discarding all prior contents, with frame
capacity d * 30 and audio capacity d * 44100 * 2; a push on a deque whose
size respects its capacity never grows it past that capacity, and a push
on a full non-trivial deque evicts the oldest element. -/
theorem resize_and_push_bounds (st : Orch) (d : Nat) (dq : BDeque Frame)
    (x : Frame) (hinv : dq.items.length ≤ dq.maxlen) :
    set_buffer_duration st d =
      ⟨d, ⟨d * 30, []⟩, ⟨d * 44100 * 2, []⟩⟩ ∧
    (dq.push x).items.length ≤ dq.maxlen ∧
    (dq.items.length = dq.maxlen → 0 < dq.maxlen →
       (dq.push x).items = dq.items.tail ++ [x]) := by
  refine ⟨rfl, ?_, ?_⟩
  · unfold BDeque.push
    dsimp only
    split_ifs with hlt
    · simp only [List.length_drop]
      omega
    · simp only [List.length_append, List.length_cons, List.length_nil] at hlt ⊢
      omega
  · intro hfull hpos
    obtain ⟨cap, items⟩ := dq
    dsimp only at hfull hpos hinv ⊢
    subst hfull
    cases items with
    | nil => exact absurd hpos (by simp)
    | cons a as =>
      unfold BDeque.push
      dsimp only
      rw [if_pos (by simp)]
      have hlen : ((a :: as) ++ [x]).length - (a :: as).length = 1 := by
        simp
      rw [hlen]
      simp

/-- Witness for claim C8, amended, at a concrete input: duration 1 and a
full deque of capacity 2. -/
theorem resize_and_push_bounds_witness :
    (([[1], [2]] : List Frame).length ≤ 2) ∧
    (set_buffer_duration ⟨0, ⟨0, []⟩, ⟨0, []⟩⟩ 1 =
       ⟨1, ⟨1 * 30, []⟩, ⟨1 * 44100 * 2, []⟩⟩ ∧
     ((⟨2, [[1], [2]]⟩ : BDeque Frame).push [3]).items.length ≤ 2 ∧
     (([[1], [2]] : List Frame).length = 2 → 0 < 2 →
        ((⟨2, [[1], [2]]⟩ : BDeque Frame).push [3]).items =
          ([[2]] : List Frame) ++ [[3]])) :=
  ⟨by decide,
   resize_and_push_bounds ⟨0, ⟨0, []⟩, ⟨0, []⟩⟩ 1 ⟨2, [[1], [2]]⟩ [3]
     (by decide)⟩

/-- Claim C9: normalization lowercases, trims, splits on whitespace and
drops single-character tokens and the fixed stopwords, so "The Clip Now"
cleans to "clip now" and is detected through the direct-match branch with
"clip" in the vocabulary; single-character tokens and every stopword are
dropped; and a recognized text whose lowercased, stripped form has length
at most one is ignored entirely — the loop body neither attempts detection
nor changes any state. -/
theorem normalization_and_edge_cases :
    (cleanedOf "The Clip Now" = "clip now" ∧
     "clip" ∈ clip_words ∧
     clipDetectedDirect "clip now" = true ∧
     clipDetected (cleanedOf "The Clip Now") = true ∧
     cleanedOf "c l i p" = "" ∧
     cleanedOf "the a an and or but in on at to ok xyz" = "ok xyz") ∧
    (∀ (st : DetectorState) (t : ℚ) (txt : String),
       (normText txt).length ≤ 1 → detectorStep st t txt = (st, false)) := by
  refine ⟨by decide, fun st t txt hle => ?_⟩
  unfold detectorStep
  rw [if_neg ?_]
  rintro ⟨-, hlt⟩
  omega

/-- Witness for claim C9 at a concrete input: the recognized text " x "
normalizes to the single character "x" and is ignored. -/
theorem normalization_and_edge_cases_witness :
    (normText " x ").length ≤ 1 ∧
    detectorStep ⟨0, []⟩ 0 " x " = (⟨0, []⟩, false) :=
  ⟨by decide, normalization_and_edge_cases.2 ⟨0, []⟩ 0 " x " (by decide)⟩

/-- Claim C10: a trigger that is detected but suppressed, by the cooldown
or by the duplicate check, leaves the detector state unchanged — the last
accepted time keeps its prior value and the recent-command deque is not
modified. -/
theorem suppressed_trigger_frame (st : DetectorState) (t : ℚ) (txt : String)
    (_hdet : clipDetected (cleanedOf txt) = true)
    (hsup : (detectorStep st t txt).2 = false) :
    (detectorStep st t txt).1.lastClipTime = st.lastClipTime ∧
    (detectorStep st t txt).1.recentCommands = st.recentCommands := by
  rw [stepNotAcceptedState st t txt hsup]
  exact ⟨rfl, rfl⟩

/-- Witness for claim C10 at a concrete input: a detected trigger arriving
one second after the last accepted one is suppressed by the cooldown and
changes nothing. -/
theorem suppressed_trigger_frame_witness :
    clipDetected (cleanedOf "clip") = true ∧
    (detectorStep ⟨10, []⟩ 11 "clip").2 = false ∧
    ((detectorStep ⟨10, []⟩ 11 "clip").1.lastClipTime = 10 ∧
     (detectorStep ⟨10, []⟩ 11 "clip").1.recentCommands = []) :=
  ⟨by decide, by with_unfolding_all rfl,
   suppressed_trigger_frame ⟨10, []⟩ 11 "clip" (by decide)
     (by with_unfolding_all rfl)⟩
